import Mathlib

/-!
Shallow embedding of the rocksdb-cloud core covered by the spec:
`src/cloud/cloud_env.cc` (environment-variable resolver, BucketOptions,
CloudEnv construction and teardown) and `src/cloud/aws/aws_file.h`
(the path-name translator `pathtoName`).

The process environment is modelled as a function `String → Option String`
(`getenv` returns `none` for an unset variable and `some v` for a variable
set to the value `v`, where `v` may be the empty string).  C++ strings are
modelled as Lean `String`s; `std::string::find`/`substr` arithmetic is
carried out on the underlying character lists.
-/

namespace RocksDBCloud

/-- Embedding of `CloudEnvOptions::GetNameFromEnvironment`
(src/cloud/cloud_env.cc lines 22-35).  The C++ signature takes `const char*
name`, `const char* alt` (which may be `nullptr`) and an in-out
`std::string* result`; here the in value of `*result` comes in as `result`
and the function returns the pair (return value, out value of `*result`).  -/
def getNameFromEnvironment (env : String → Option String) (name : String)
    (alt : Option String) (result : String) : Bool × String :=
  let value := env name
  let value :=
    match value, alt with
    | none, some a => env a
    | v, _ => v
  match value with
  | some v => (true, v)
  | none => (false, result)

/-- The fields of `BucketOptions` (declared in cloud_env.h, used by
src/cloud/cloud_env.cc).  All fields are `std::string`s.  -/
structure BucketOptions where
  bucket_ : String
  object_ : String
  region_ : String
  prefix_ : String
  name_ : String
deriving DecidableEq

/-- Embedding of the default constructor `BucketOptions::BucketOptions`
(src/cloud/cloud_env.cc line 44): `prefix_ = "rockset."`; the remaining
`std::string` members default-construct to the empty string.  -/
def defaultBucketOptions : BucketOptions :=
  { bucket_ := "", object_ := "", region_ := "", prefix_ := "rockset.", name_ := "" }

/-- Embedding of `BucketOptions::SetBucketName(bucket, prefix)`
(src/cloud/cloud_env.cc lines 46-58).  In C++ the second parameter defaults
to `""`; callers that pass one argument are modelled by passing `""`
explicitly.  -/
def BucketOptions.SetBucketName (o : BucketOptions) (bucket p : String) :
    BucketOptions :=
  let prefix_ := if p ≠ "" then p else o.prefix_
  let bucket_ := bucket
  let name_ := if bucket_ = "" then "" else prefix_ ++ bucket_
  { o with prefix_ := prefix_, bucket_ := bucket_, name_ := name_ }

set_option linter.unusedVariables false in
/-- Embedding of `BucketOptions::TEST_Initialize(bucket, object, region)`
(src/cloud/cloud_env.cc lines 62-100).  cloud_env.cc unconditionally
includes `<windows.h>` (line 5), which defines `_WIN32_WINNT`, so in every
build in which the file compiles the fallback for an unset bucket-name
variable is the `GetUserName` branch (lines 71-80), which appends to the
existing `bucket_` member and ignores the `bucket` argument; the `#else`
`geteuid` branch (line 82) is dead code.  The outcome of the external
`::GetUserName` call is abstracted as the parameter `winUser`: `none`
models a failed call, after which the code appends `"unknown"`; `some u`
models a successful call that wrote the user name `u` into the buffer and
set `dwsize` to the number of characters copied including the terminating
null, so the appended `std::string(user_name, dwsize)` is `u` followed by
the null character (and hence never empty).  The misspelt variable name
`ROCKSDB_CLOUD_TEST_OBECT_PATH` is reproduced from the source.  -/
def BucketOptions.TEST_Initialize (o : BucketOptions)
    (env : String → Option String) (winUser : Option String)
    (bucket object region : String) : BucketOptions :=
  let rb := getNameFromEnvironment env "ROCKSDB_CLOUD_TEST_BUCKET_NAME"
    (some "ROCKSDB_CLOUD_BUCKET_NAME") o.bucket_
  let bucket_ :=
    if rb.1 then rb.2
    else
      match winUser with
      | none => rb.2 ++ "unknown"
      | some u => rb.2 ++ u.push '\x00'
  let rp := getNameFromEnvironment env "ROCKSDB_CLOUD_TEST_BUCKET_PREFIX"
    (some "ROCKSDB_CLOUD_BUCKET_PREFIX") ""
  let prefix_ := if rp.1 then rp.2 else o.prefix_
  let name_ := prefix_ ++ bucket_
  let ro := getNameFromEnvironment env "ROCKSDB_CLOUD_TEST_OBECT_PATH"
    (some "ROCKSDB_CLOUD_OBJECT_PATH") o.object_
  let object_ := if ro.1 then ro.2 else object
  let rr := getNameFromEnvironment env "ROCKSDB_CLOUD_TEST_REGION"
    (some "ROCKSDB_CLOUD_REGION") o.region_
  let region_ := if rr.1 then rr.2 else region
  { bucket_ := bucket_, object_ := object_, region_ := region_,
    prefix_ := prefix_, name_ := name_ }

/-- The invariant stated by the spec for `BucketOptions`:
`name = prefix + bucket` whenever `bucket` is non-empty, and `name` is
empty iff `bucket` is empty.  -/
def BucketInvariant (o : BucketOptions) : Prop :=
  (o.bucket_ ≠ "" → o.name_ = o.prefix_ ++ o.bucket_) ∧
  (o.name_ = "" ↔ o.bucket_ = "")

/-- The states reachable through the public `BucketOptions` operations:
default construction, `SetBucketName` with arbitrary arguments, and
`TEST_Initialize` under an arbitrary environment-variable assignment.  -/
inductive BucketReachable : BucketOptions → Prop
  | init : BucketReachable defaultBucketOptions
  | set (bucket p : String) {o : BucketOptions} :
      BucketReachable o → BucketReachable (o.SetBucketName bucket p)
  | testInit (env : String → Option String) (winUser : Option String)
      (bucket object region : String) {o : BucketOptions} :
      BucketReachable o →
      BucketReachable (o.TEST_Initialize env winUser bucket object region)

/-- Index of the first `'\'` in a character list: `std::string::find('\\')`
returning `none` for `npos`.  -/
def findBackslash : List Char → Option Nat
  | [] => none
  | a :: rest => if a = '\\' then some 0 else (findBackslash rest).map (· + 1)

/-- Index of the first occurrence of the two-character substring `":\"`:
`std::string::find(":\\")` returning `none` for `npos`.  -/
def findDriveMarker : List Char → Option Nat
  | [] => none
  | [_] => none
  | a :: b :: rest =>
    if a = ':' ∧ b = '\\' then some 0 else (findDriveMarker (b :: rest)).map (· + 1)

/-- The `while (s.find('\\') != npos)` loop of `pathtoName`
(src/cloud/aws/aws_file.h lines 22-26): while a backslash remains at index
`i`, append `s.substr(0, i) + "-"` to `directory` unless `i == 0`, then
continue with `s.substr(i + 1, s.size() - i - 1)` (exactly the characters
after the backslash); finally (lines 27-29) append the remaining `s` if it
is non-empty.  -/
def pathLoop (directory : List Char) (s : List Char) : List Char :=
  match h : findBackslash s with
  | some i =>
      pathLoop (if i ≠ 0 then directory ++ s.take i ++ ['-'] else directory)
        (s.drop (i + 1))
  | none => if s.isEmpty then directory else directory ++ s
termination_by s.length
decreasing_by
  cases s with
  | nil => simp [findBackslash] at h
  | cons a rest => simp [List.length_drop]; omega

/-- Embedding of `pathtoName` (src/cloud/aws/aws_file.h lines 15-31).  The
drive step mirrors `s.find(":\\")`: when the marker occurs at index `i`,
`directory` starts as `s.substr(0, i) + "-"` and the rest of the input is
`s.substr(i + 2, s.size() - i)`; the count argument `s.size() - i` exceeds
the characters available from position `i + 2`, so `substr` clamps it and
the rest is exactly `drop (i + 2)`.  -/
def pathtoName (s : String) : String :=
  match findDriveMarker s.data with
  | some drive_idx =>
      String.mk
        (pathLoop (s.data.take drive_idx ++ ['-']) (s.data.drop (drive_idx + 2)))
  | none => String.mk (pathLoop [] s.data)

/-- Modelled from the spec: `BucketOptions::IsValid` is declared in
cloud_env.h, which is not under src/.  Spec §4.1: "true iff `name` is
non-empty — i.e., a bucket has been named."  -/
def BucketOptions.IsValid (o : BucketOptions) : Bool :=
  o.name_ != ""

/-- Modelled from the spec: `BucketOptions::SetObjectPath` is declared in
cloud_env.h, which is not under src/.  It stores the object-path (key)
prefix field and touches nothing else (spec §3: `SetBucketName` is the
only mutator of `bucket`/`prefix`/`name`).  -/
def BucketOptions.SetObjectPath (o : BucketOptions) (object : String) :
    BucketOptions :=
  { o with object_ := object }

/-- Modelled from the spec: `BucketOptions::SetRegion` is declared in
cloud_env.h, which is not under src/.  It stores the region field and
touches nothing else.  -/
def BucketOptions.SetRegion (o : BucketOptions) (region : String) :
    BucketOptions :=
  { o with region_ := region }

/-- The status values relevant to `CloudEnv::NewAwsEnv`: the spec's error
taxonomy collapsed to whether `Status::ok()` holds, with the failure cases
kept abstract.  -/
inductive Status where
  | ok
  | notSupported
  | ioError
  | invalidArgument
deriving DecidableEq

/-- `Status::ok()`.  -/
def Status.isOk : Status → Bool
  | Status.ok => true
  | _ => false

/-- The fields of `CloudEnvOptions` used by src/cloud/cloud_env.cc, plus
the scalar configuration fields the spec lists (§3); the structure itself
is declared in cloud_env.h, which is not under src/.  -/
structure CloudEnvOptions where
  src_bucket : BucketOptions
  dest_bucket : BucketOptions
  run_purger : Bool
  request_timeout_ms : Nat
  connect_timeout_ms : Nat
  server_side_encryption : Bool
  encryption_key_id : String
deriving DecidableEq

/-- Result of `CloudEnv::NewAwsEnv`: the returned `Status` and whether the
background purge thread was started (`cloud->purge_thread_ = std::thread(...)`
executed).  -/
structure NewAwsEnvResult where
  st : Status
  purgerStarted : Bool
deriving DecidableEq

/-- Embedding of `CloudEnv::NewAwsEnv(base_env, options, logger, cenv)`
(src/cloud/cloud_env.cc lines 140-158, the `USE_AWS` branch).  The inner
call `AwsEnv::NewAwsEnv` is code of this repository that is not under
src/; its outcome is abstracted as the parameter `awsSt` (modelled from
the spec §4.4: provider construction may fail, e.g. with `NotSupported`).
When it succeeds, the purge thread is started iff
`options.dest_bucket.IsValid() && options.run_purger`.  -/
def CloudEnv.NewAwsEnv (options : CloudEnvOptions) (awsSt : Status) :
    NewAwsEnvResult :=
  if awsSt.isOk then
    { st := awsSt,
      purgerStarted := options.dest_bucket.IsValid && options.run_purger }
  else
    { st := awsSt, purgerStarted := false }

/-- Embedding of the options transformation performed by the convenience
overload `CloudEnv::NewAwsEnv` taking six raw strings
(src/cloud/cloud_env.cc lines 111-130): each non-empty argument is applied
through the corresponding `BucketOptions` setter on a copy of
`cloud_options`, each empty argument is skipped; the resulting options are
then handed to the four-argument `NewAwsEnv`.  -/
def CloudEnv.NewAwsEnvConvenience
    (src_cloud_bucket src_cloud_object src_cloud_region
     dest_cloud_bucket dest_cloud_object dest_cloud_region : String)
    (cloud_options : CloudEnvOptions) : CloudEnvOptions :=
  let options := cloud_options
  let options := if src_cloud_bucket ≠ "" then
      { options with
        src_bucket := options.src_bucket.SetBucketName src_cloud_bucket "" }
    else options
  let options := if src_cloud_object ≠ "" then
      { options with
        src_bucket := options.src_bucket.SetObjectPath src_cloud_object }
    else options
  let options := if src_cloud_region ≠ "" then
      { options with
        src_bucket := options.src_bucket.SetRegion src_cloud_region }
    else options
  let options := if dest_cloud_bucket ≠ "" then
      { options with
        dest_bucket := options.dest_bucket.SetBucketName dest_cloud_bucket "" }
    else options
  let options := if dest_cloud_object ≠ "" then
      { options with
        dest_bucket := options.dest_bucket.SetObjectPath dest_cloud_object }
    else options
  let options := if dest_cloud_region ≠ "" then
      { options with
        dest_bucket := options.dest_bucket.SetRegion dest_cloud_region }
    else options
  options

/-- The observable events of CloudEnv teardown.  -/
inductive TeardownEvent where
  | signalPurgerStop
  | joinPurger
  | releaseLogController
  | releaseStorageProvider
deriving DecidableEq

/-- The teardown event sequence.  The trailing two events embed
`CloudEnv::~CloudEnv` (src/cloud/cloud_env.cc lines 106-109):
`cloud_env_options.cloud_log_controller.reset()` then
`cloud_env_options.storage_provider.reset()`.  The leading two events are
modelled from the spec: the derived-class destructor
(`CloudEnvImpl::~CloudEnvImpl`, which owns `purge_thread_`) is not under
src/; spec §4.4: "on teardown, the reclamation task is signaled to stop
and joined before the provider and controller references are released."
C++ runs the derived destructor before the base destructor, so the
modelled stop/join events precede the two release events from the source.  -/
def CloudEnv.teardownSequence (purgerStarted : Bool) : List TeardownEvent :=
  (if purgerStarted then
      [TeardownEvent.signalPurgerStop, TeardownEvent.joinPurger]
    else []) ++
  [TeardownEvent.releaseLogController, TeardownEvent.releaseStorageProvider]

/-- The resolution `TEST_Initialize` performs for the bucket-name setting:
first the primary variable, else the alternate.  -/
def resolveBucketVar (env : String → Option String) : Option String :=
  match env "ROCKSDB_CLOUD_TEST_BUCKET_NAME" with
  | some v => some v
  | none => env "ROCKSDB_CLOUD_BUCKET_NAME"

/-- An environment assignment under which the bucket-name variables, when
they resolve, yield a non-empty value.  -/
def BucketEnvOk (env : String → Option String) : Prop :=
  ∀ v, resolveBucketVar env = some v → v ≠ ""

/-- The states reachable through the public `BucketOptions` operations
when every `TEST_Initialize` step runs under an environment assignment
satisfying `BucketEnvOk` (the amendment forced by the C1 counterexample).  -/
inductive BucketReachableSafe : BucketOptions → Prop
  | init : BucketReachableSafe defaultBucketOptions
  | set (bucket p : String) {o : BucketOptions} :
      BucketReachableSafe o → BucketReachableSafe (o.SetBucketName bucket p)
  | testInit (env : String → Option String) (winUser : Option String)
      (bucket object region : String) {o : BucketOptions} :
      BucketEnvOk env → BucketReachableSafe o →
      BucketReachableSafe (o.TEST_Initialize env winUser bucket object region)

/-- The environment assignment of the C1 counterexample: the primary
bucket-name variable is present but set to the empty string; every other
variable is unset.  -/
def c1BadEnv : String → Option String :=
  fun v => if v = "ROCKSDB_CLOUD_TEST_BUCKET_NAME" then some "" else none

/-- A concrete `CloudEnvOptions` value with a named destination bucket and
purging enabled, used in witnesses and counterexamples.  -/
def purgerOptions : CloudEnvOptions :=
  { src_bucket := defaultBucketOptions,
    dest_bucket := defaultBucketOptions.SetBucketName "bucket" "",
    run_purger := true, request_timeout_ms := 0, connect_timeout_ms := 0,
    server_side_encryption := false, encryption_key_id := "" }

/-- Like `purgerOptions` but with no destination bucket configured.  -/
def noDestOptions : CloudEnvOptions :=
  { purgerOptions with dest_bucket := defaultBucketOptions }

/-- An environment assignment with both the primary and the alternate
variable set.  -/
def primaryAndAlternateEnv : String → Option String :=
  fun v =>
    if v = "X_TEST" then some "primary-value"
    else if v = "X" then some "alternate-value"
    else none

/-- An environment assignment with only the alternate variable set.  -/
def alternateOnlyEnv : String → Option String :=
  fun v => if v = "X" then some "alternate-value" else none

/-- The empty environment assignment.  -/
def emptyEnv : String → Option String :=
  fun _ => none

/-- An environment assignment whose primary variable is present but set to
the empty string.  -/
def presentButEmptyEnv : String → Option String :=
  fun v => if v = "X_TEST" then some "" else none

theorem stringMkData : ∀ s : String, String.mk s.data = s
  | ⟨_⟩ => rfl

theorem stringExt : ∀ {a b : String}, a.data = b.data → a = b
  | ⟨_⟩, ⟨_⟩, h => congrArg String.mk h

theorem stringAppendEqEmpty {a b : String} :
    a ++ b = "" ↔ a = "" ∧ b = "" := by
  constructor
  · intro h
    have hd : a.data ++ b.data = [] := by
      have := congrArg String.data h
      simpa [String.data_append] using this
    rcases List.append_eq_nil.mp hd with ⟨h1, h2⟩
    exact ⟨stringExt (by rw [h1]), stringExt (by rw [h2])⟩
  · rintro ⟨rfl, rfl⟩; rfl

theorem stringPushNeEmpty (s : String) (c : Char) : s.push c ≠ "" := by
  intro h
  have hd := congrArg String.data h
  simp [String.push] at hd

theorem setBucketName_bucket (o : BucketOptions) (bucket p : String) :
    (o.SetBucketName bucket p).bucket_ = bucket := rfl

theorem setBucketName_name (o : BucketOptions) (bucket p : String) :
    (o.SetBucketName bucket p).name_ =
      if bucket = "" then "" else (o.SetBucketName bucket p).prefix_ ++ bucket :=
  rfl

theorem testInitialize_bucket (o : BucketOptions)
    (env : String → Option String) (winUser : Option String)
    (bucket object region : String) :
    (o.TEST_Initialize env winUser bucket object region).bucket_ =
      match resolveBucketVar env with
      | some v => v
      | none =>
          match winUser with
          | none => o.bucket_ ++ "unknown"
          | some u => o.bucket_ ++ u.push '\x00' := by
  unfold BucketOptions.TEST_Initialize resolveBucketVar getNameFromEnvironment
  cases h1 : env "ROCKSDB_CLOUD_TEST_BUCKET_NAME" <;>
    cases h2 : env "ROCKSDB_CLOUD_BUCKET_NAME" <;> simp [h1, h2]

theorem testInitialize_name (o : BucketOptions)
    (env : String → Option String) (winUser : Option String)
    (bucket object region : String) :
    (o.TEST_Initialize env winUser bucket object region).name_ =
      (o.TEST_Initialize env winUser bucket object region).prefix_ ++
        (o.TEST_Initialize env winUser bucket object region).bucket_ := rfl

theorem setBucketName_invariant (o : BucketOptions) (bucket p : String) :
    BucketInvariant (o.SetBucketName bucket p) := by
  unfold BucketInvariant
  rw [setBucketName_bucket, setBucketName_name]
  by_cases hb : bucket = ""
  · simp [hb]
  · rw [if_neg hb]
    refine ⟨fun _ => rfl, ?_, ?_⟩
    · intro hc
      exact (stringAppendEqEmpty.mp hc).2
    · intro hc
      exact absurd hc hb

theorem testInitialize_invariant (o : BucketOptions)
    (env : String → Option String) (winUser : Option String)
    (bucket object region : String) (henv : BucketEnvOk env) :
    BucketInvariant (o.TEST_Initialize env winUser bucket object region) := by
  have hb : (o.TEST_Initialize env winUser bucket object region).bucket_ ≠ "" := by
    rw [testInitialize_bucket]
    cases hr : resolveBucketVar env with
    | some v => exact henv v hr
    | none =>
        cases winUser with
        | none =>
            intro hc
            have h2 := (stringAppendEqEmpty.mp hc).2
            simp at h2
        | some u =>
            intro hc
            exact stringPushNeEmpty u '\x00' (stringAppendEqEmpty.mp hc).2
  have hn := testInitialize_name o env winUser bucket object region
  refine ⟨fun _ => hn, ?_, ?_⟩
  · intro he
    rw [hn] at he
    exact (stringAppendEqEmpty.mp he).2
  · intro he
    exact absurd he hb

theorem findBackslash_eq_none {l : List Char} (h : '\\' ∉ l) :
    findBackslash l = none := by
  induction l with
  | nil => rfl
  | cons a rest ih =>
      simp only [List.mem_cons, not_or] at h
      simp [findBackslash, ih h.2]
      exact fun hc => h.1 hc.symm

theorem findDriveMarker_eq_none_of_no_backslash :
    ∀ {l : List Char}, '\\' ∉ l → findDriveMarker l = none
  | [], _ => rfl
  | [_], _ => rfl
  | a :: b :: rest, h => by
      simp only [List.mem_cons, not_or] at h
      have ih := findDriveMarker_eq_none_of_no_backslash (l := b :: rest)
        (by simp only [List.mem_cons, not_or]; exact ⟨h.2.1, h.2.2⟩)
      simp [findDriveMarker, ih]
      exact fun _ hb => h.2.1 hb.symm

theorem findDriveMarker_eq_none_of_no_colon :
    ∀ {l : List Char}, ':' ∉ l → findDriveMarker l = none
  | [], _ => rfl
  | [_], _ => rfl
  | a :: b :: rest, h => by
      simp only [List.mem_cons, not_or] at h
      have ih := findDriveMarker_eq_none_of_no_colon (l := b :: rest)
        (by simp only [List.mem_cons, not_or]; exact ⟨h.2.1, h.2.2⟩)
      simp [findDriveMarker, ih]
      exact fun ha _ => h.1 ha.symm

theorem pathLoop_of_no_backslash (directory : List Char) {s : List Char}
    (h : '\\' ∉ s) :
    pathLoop directory s = if s.isEmpty then directory else directory ++ s := by
  rw [pathLoop, findBackslash_eq_none h]

theorem pathLoop_of_all_backslash (directory : List Char) :
    ∀ {s : List Char}, (∀ c ∈ s, c = '\\') → pathLoop directory s = directory := by
  intro s
  induction s with
  | nil => intro _; rw [pathLoop]; rfl
  | cons a rest ih =>
      intro h
      have ha : a = '\\' := h a (List.mem_cons_self a rest)
      have hfind : findBackslash (a :: rest) = some 0 := by
        simp [findBackslash, ha]
      rw [pathLoop, hfind]
      simpa using ih (fun c hc => h c (List.mem_cons_of_mem a hc))

/-- C1 (counterexample): the claimed invariant fails on a reachable state.
Starting from a default-constructed `BucketOptions`, running
`TEST_Initialize` under an environment assignment in which
`ROCKSDB_CLOUD_TEST_BUCKET_NAME` is present but set to the empty string
leaves `bucket_` empty while `name_` becomes `"rockset."`, so `name` is
non-empty although `bucket` is empty.  -/
theorem c1_counterexample_empty_env_bucket :
    BucketReachable (defaultBucketOptions.TEST_Initialize c1BadEnv none "" "" "") ∧
    ¬ BucketInvariant (defaultBucketOptions.TEST_Initialize c1BadEnv none "" "" "") := by
  refine ⟨BucketReachable.testInit c1BadEnv none "" "" "" BucketReachable.init, ?_⟩
  intro hinv
  have hb : (defaultBucketOptions.TEST_Initialize c1BadEnv none "" "" "").bucket_ = "" := by
    decide
  have hn := hinv.2.mpr hb
  revert hn
  decide

/-- C1 (amended): for every `BucketOptions` value reachable through default
construction, `SetBucketName` with any arguments, and `TEST_Initialize`
under any environment-variable assignment in which the bucket-name
variables, when they resolve, yield a non-empty value, the invariant holds
that `name` equals the stored prefix concatenated with `bucket` whenever
`bucket` is non-empty, and `name` is empty iff `bucket` is empty.  -/
theorem c1_invariant_reachable_safe (o : BucketOptions)
    (h : BucketReachableSafe o) : BucketInvariant o := by
  induction h with
  | init => exact ⟨fun hc => absurd rfl hc, Iff.rfl⟩
  | set bucket p _ _ => exact setBucketName_invariant _ bucket p
  | testInit env winUser bucket object region henv _ _ =>
      exact testInitialize_invariant _ env winUser bucket object region henv

/-- Witness for C1: the amended theorem applied to the default-constructed
state.  -/
theorem c1_invariant_witness : BucketInvariant defaultBucketOptions :=
  c1_invariant_reachable_safe defaultBucketOptions BucketReachableSafe.init

/-- C2 (counterexample): with a valid destination bucket and `run_purger`
set, the purge thread is still not started when the underlying
`AwsEnv::NewAwsEnv` construction fails.  -/
theorem c2_counterexample_failed_construction :
    purgerOptions.dest_bucket.IsValid = true ∧
    purgerOptions.run_purger = true ∧
    (CloudEnv.NewAwsEnv purgerOptions Status.notSupported).purgerStarted = false := by
  decide

/-- C2 (amended): the Purger is never started when `dest_bucket.IsValid()`
is false, regardless of `run_purger`; and when the underlying construction
succeeds, it is always started when both `dest_bucket.IsValid()` and
`run_purger` are true.  -/
theorem c2_purger_start_amended (options : CloudEnvOptions) (awsSt : Status) :
    (options.dest_bucket.IsValid = false →
      (CloudEnv.NewAwsEnv options awsSt).purgerStarted = false) ∧
    (awsSt.isOk = true → options.dest_bucket.IsValid = true →
      options.run_purger = true →
      (CloudEnv.NewAwsEnv options awsSt).purgerStarted = true) := by
  unfold CloudEnv.NewAwsEnv
  constructor
  · intro h
    split <;> simp [h]
  · intro hok hv hr
    simp [hok, hv, hr]

/-- Witness for C2: concrete options with and without a destination
bucket, under a successful construction.  -/
theorem c2_purger_start_witness :
    (CloudEnv.NewAwsEnv noDestOptions Status.ok).purgerStarted = false ∧
    (CloudEnv.NewAwsEnv purgerOptions Status.ok).purgerStarted = true :=
  ⟨(c2_purger_start_amended noDestOptions Status.ok).1 (by decide),
   (c2_purger_start_amended purgerOptions Status.ok).2 rfl (by decide) rfl⟩

set_option maxRecDepth 100000 in
/-- C3 (code bug): `pathtoName` does not always return a key free of path
separators.  On the input `a\b:\c` — where the drive marker `:\` occurs
after a separator — `s.find(":\\")` matches mid-string, the prefix `a\b`
is copied verbatim into the output, and the returned key `a\b-c` still
contains the separator `\`.  -/
theorem c3_separator_survives_translation :
    pathtoName "a\\b:\\c" = "a\\b-c" ∧ '\\' ∈ ("a\\b-c" : String).data := by
  constructor
  · simp [pathtoName, findDriveMarker, findBackslash, pathLoop]
  · decide

set_option maxRecDepth 100000 in
/-- C4 (counterexample): translating `a\\b` (doubled separator mid-path)
does not yield `a--b`.  -/
theorem c4_counterexample_no_double_dash :
    pathtoName "a\\\\b" ≠ "a--b" := by
  have h : pathtoName "a\\\\b" = "a-b" := by
    simp [pathtoName, findDriveMarker, findBackslash, pathLoop]
  rw [h]
  decide

set_option maxRecDepth 100000 in
/-- C4 (amended): translating `a\\b` (doubled separator mid-path) yields
`a-b`: the empty intermediate segment emits no dash, because the loop's
`if (drive_idx)` test skips the append when the separator is at index 0.  -/
theorem c4_doubled_separator_amended :
    pathtoName "a\\\\b" = "a-b" := by
  simp [pathtoName, findDriveMarker, findBackslash, pathLoop]

/-- C5 (counterexample): with an empty prefix argument, `SetBucketName`
keeps the previously stored prefix, so from the default state
`SetBucketName("b", "")` yields the name `rockset.b`, not the prefix
argument concatenated with the bucket argument.  -/
theorem c5_counterexample_empty_prefix_arg :
    (defaultBucketOptions.SetBucketName "b" "").name_ = "rockset.b" ∧
    (defaultBucketOptions.SetBucketName "b" "").name_ ≠ "" ++ "b" := by
  decide

/-- C5 (amended): `SetBucketName(bucket, prefix)` yields `name =
prefix+bucket` when both `bucket` and the `prefix` argument are non-empty,
an empty `name` when `bucket` is empty, and calling it twice with the same
arguments leaves the `BucketOptions` in the same state as calling it
once.  -/
theorem c5_setBucketName_amended (o : BucketOptions) (bucket p : String) :
    (p ≠ "" → bucket ≠ "" → (o.SetBucketName bucket p).name_ = p ++ bucket) ∧
    (bucket = "" → (o.SetBucketName bucket p).name_ = "") ∧
    (o.SetBucketName bucket p).SetBucketName bucket p =
      o.SetBucketName bucket p := by
  unfold BucketOptions.SetBucketName
  refine ⟨?_, ?_, ?_⟩
  · intro hp hb
    simp [hp, hb]
  · intro hb
    simp [hb]
  · by_cases hp : p = "" <;> by_cases hb : bucket = "" <;> simp [hp, hb]

/-- Witness for C5: the amended theorem at the default state with a
non-empty prefix argument, for a non-empty and for an empty bucket.  -/
theorem c5_setBucketName_witness :
    (defaultBucketOptions.SetBucketName "b" "p").name_ = "p" ++ "b" ∧
    (defaultBucketOptions.SetBucketName "" "p").name_ = "" :=
  ⟨(c5_setBucketName_amended defaultBucketOptions "b" "p").1 (by decide)
      (by decide),
   (c5_setBucketName_amended defaultBucketOptions "" "p").2.1 rfl⟩

set_option maxRecDepth 100000 in
/-- C6: `pathtoName` maps `C:\Users\foo\bar.sst` to `C-Users-foo-bar.sst`;
maps `\var\lib\db\000001.log` to `var-lib-db-000001.log` with no extra
leading dash; returns any path with no separators (and hence no drive
specifier) unchanged; and maps any path consisting only of separators to
the empty string.  -/
theorem c6_pathtoName_examples :
    pathtoName "C:\\Users\\foo\\bar.sst" = "C-Users-foo-bar.sst" ∧
    pathtoName "\\var\\lib\\db\\000001.log" = "var-lib-db-000001.log" ∧
    (∀ s : String, '\\' ∉ s.data → pathtoName s = s) ∧
    (∀ s : String, (∀ c ∈ s.data, c = '\\') → pathtoName s = "") := by
  refine ⟨?_, ?_, ?_, ?_⟩
  · simp [pathtoName, findDriveMarker, findBackslash, pathLoop]
  · simp [pathtoName, findDriveMarker, findBackslash, pathLoop]
  · intro s hs
    simp only [pathtoName, findDriveMarker_eq_none_of_no_backslash hs]
    rw [pathLoop_of_no_backslash _ hs]
    by_cases hd : s.data = []
    · rw [hd]
      simp only [List.isEmpty_nil, if_true]
      exact stringExt hd.symm
    · have hne : s.data.isEmpty = false := by
        cases hx : s.data with
        | nil => exact absurd hx hd
        | cons a l => rfl
      rw [hne]
      simp
  · intro s hs
    have hcolon : ':' ∉ s.data := by
      intro hc
      have := hs ':' hc
      simp at this
    simp only [pathtoName, findDriveMarker_eq_none_of_no_colon hcolon]
    rw [pathLoop_of_all_backslash [] hs]

/-- Witness for C6: the two universally quantified parts applied to the
spec's own example inputs.  -/
theorem c6_pathtoName_witness :
    pathtoName "plainname" = "plainname" ∧ pathtoName "\\\\" = "" :=
  ⟨c6_pathtoName_examples.2.2.1 "plainname" (by decide),
   c6_pathtoName_examples.2.2.2 "\\\\" (by decide)⟩

/-- C7: for every environment-variable state, `GetNameFromEnvironment`
resolves the primary name first (regardless of the alternate), then the
alternate, and otherwise leaves the result untouched and reports
not-found.  -/
theorem c7_getNameFromEnvironment_order (env : String → Option String)
    (name alt result : String) :
    (∀ v, env name = some v →
      getNameFromEnvironment env name (some alt) result = (true, v)) ∧
    (env name = none → ∀ v, env alt = some v →
      getNameFromEnvironment env name (some alt) result = (true, v)) ∧
    (env name = none → env alt = none →
      getNameFromEnvironment env name (some alt) result = (false, result)) := by
  unfold getNameFromEnvironment
  refine ⟨?_, ?_, ?_⟩
  · intro v hv
    simp [hv]
  · intro h0 v hv
    simp [h0, hv]
  · intro h0 h1
    simp [h0, h1]

/-- Witness for C7: the three resolution cases at concrete environments.  -/
theorem c7_getNameFromEnvironment_witness :
    getNameFromEnvironment primaryAndAlternateEnv "X_TEST" (some "X") "orig" =
      (true, "primary-value") ∧
    getNameFromEnvironment alternateOnlyEnv "X_TEST" (some "X") "orig" =
      (true, "alternate-value") ∧
    getNameFromEnvironment emptyEnv "X_TEST" (some "X") "orig" =
      (false, "orig") :=
  ⟨(c7_getNameFromEnvironment_order primaryAndAlternateEnv "X_TEST" "X" "orig").1
      "primary-value" (by decide),
   (c7_getNameFromEnvironment_order alternateOnlyEnv "X_TEST" "X" "orig").2.1
      (by decide) "alternate-value" (by decide),
   (c7_getNameFromEnvironment_order emptyEnv "X_TEST" "X" "orig").2.2 rfl rfl⟩

/-- C8 (counterexample): a non-empty bucket argument to the convenience
constructor does not replace only the bucket field: the derived `name`
field of the same `BucketOptions` is recomputed as well.  -/
theorem c8_counterexample_name_recomputed :
    (CloudEnv.NewAwsEnvConvenience "b" "" "" "" "" "" purgerOptions).src_bucket.bucket_ = "b" ∧
    (CloudEnv.NewAwsEnvConvenience "b" "" "" "" "" "" purgerOptions).src_bucket.name_ ≠
      purgerOptions.src_bucket.name_ := by
  decide

/-- C8 (amended): for the convenience `CloudEnv::NewAwsEnv`, each empty
string argument leaves its corresponding field of the copied options
unchanged; each non-empty argument replaces its corresponding field — a
non-empty bucket argument additionally recomputing the derived `name`
field of the same `BucketOptions` as the stored prefix concatenated with
the new bucket — and all other fields of the options are unchanged.  -/
theorem c8_convenience_frame (co : CloudEnvOptions)
    (sb so sr db dobj dreg : String) (r : CloudEnvOptions)
    (hr : r = CloudEnv.NewAwsEnvConvenience sb so sr db dobj dreg co) :
    (sb = "" → r.src_bucket.bucket_ = co.src_bucket.bucket_ ∧
      r.src_bucket.name_ = co.src_bucket.name_) ∧
    (sb ≠ "" → r.src_bucket.bucket_ = sb ∧
      r.src_bucket.name_ = co.src_bucket.prefix_ ++ sb) ∧
    (so = "" → r.src_bucket.object_ = co.src_bucket.object_) ∧
    (so ≠ "" → r.src_bucket.object_ = so) ∧
    (sr = "" → r.src_bucket.region_ = co.src_bucket.region_) ∧
    (sr ≠ "" → r.src_bucket.region_ = sr) ∧
    (db = "" → r.dest_bucket.bucket_ = co.dest_bucket.bucket_ ∧
      r.dest_bucket.name_ = co.dest_bucket.name_) ∧
    (db ≠ "" → r.dest_bucket.bucket_ = db ∧
      r.dest_bucket.name_ = co.dest_bucket.prefix_ ++ db) ∧
    (dobj = "" → r.dest_bucket.object_ = co.dest_bucket.object_) ∧
    (dobj ≠ "" → r.dest_bucket.object_ = dobj) ∧
    (dreg = "" → r.dest_bucket.region_ = co.dest_bucket.region_) ∧
    (dreg ≠ "" → r.dest_bucket.region_ = dreg) ∧
    r.src_bucket.prefix_ = co.src_bucket.prefix_ ∧
    r.dest_bucket.prefix_ = co.dest_bucket.prefix_ ∧
    r.run_purger = co.run_purger ∧
    r.request_timeout_ms = co.request_timeout_ms ∧
    r.connect_timeout_ms = co.connect_timeout_ms ∧
    r.server_side_encryption = co.server_side_encryption ∧
    r.encryption_key_id = co.encryption_key_id := by
  subst hr
  unfold CloudEnv.NewAwsEnvConvenience BucketOptions.SetBucketName
    BucketOptions.SetObjectPath BucketOptions.SetRegion
  by_cases h1 : sb = "" <;> by_cases h2 : so = "" <;>
    by_cases h3 : sr = "" <;> by_cases h4 : db = "" <;>
      by_cases h5 : dobj = "" <;> by_cases h6 : dreg = "" <;>
        simp [h1, h2, h3, h4, h5, h6]

/-- Witness for C8: a mixed call — non-empty source bucket, non-empty
destination object path, everything else empty — checked against the
original options.  -/
theorem c8_convenience_witness :
    (CloudEnv.NewAwsEnvConvenience "b" "" "" "" "O" "" purgerOptions).src_bucket.bucket_ = "b" ∧
    (CloudEnv.NewAwsEnvConvenience "b" "" "" "" "O" "" purgerOptions).src_bucket.object_ =
      purgerOptions.src_bucket.object_ ∧
    (CloudEnv.NewAwsEnvConvenience "b" "" "" "" "O" "" purgerOptions).dest_bucket.object_ = "O" ∧
    (CloudEnv.NewAwsEnvConvenience "b" "" "" "" "O" "" purgerOptions).run_purger =
      purgerOptions.run_purger := by
  obtain ⟨e1, e2, e3, e4, e5, e6, e7, e8, e9, e10, e11, e12, e13, e14, e15, e16, e17, e18, e19⟩ :=
    c8_convenience_frame purgerOptions "b" "" "" "" "O" "" _ rfl
  exact ⟨(e2 (by decide)).1, e3 rfl, e10 (by decide), e15⟩

/-- C9: on teardown after the Purger has been started, the background task
is signaled to stop and joined before the log-controller and
storage-provider references are released: in the teardown event sequence,
the join event precedes both release events.  -/
theorem c9_teardown_release_after_join (purgerStarted : Bool)
    (hp : purgerStarted = true) (i j : Nat)
    (hi : (CloudEnv.teardownSequence purgerStarted)[i]? =
      some TeardownEvent.joinPurger)
    (hj : (CloudEnv.teardownSequence purgerStarted)[j]? =
        some TeardownEvent.releaseLogController ∨
      (CloudEnv.teardownSequence purgerStarted)[j]? =
        some TeardownEvent.releaseStorageProvider) :
    i < j := by
  subst hp
  have hseq : CloudEnv.teardownSequence true =
      [TeardownEvent.signalPurgerStop, TeardownEvent.joinPurger,
       TeardownEvent.releaseLogController, TeardownEvent.releaseStorageProvider] := rfl
  rw [hseq] at hi hj
  have hi' : i = 1 := by
    match i with
    | 0 => simp at hi
    | 1 => rfl
    | 2 => simp at hi
    | 3 => simp at hi
    | n + 4 => simp at hi
  have hj' : j = 2 ∨ j = 3 := by
    match j with
    | 0 => rcases hj with h | h <;> simp at h
    | 1 => rcases hj with h | h <;> simp at h
    | 2 => exact Or.inl rfl
    | 3 => exact Or.inr rfl
    | n + 4 => rcases hj with h | h <;> simp at h
  subst hi'
  rcases hj' with rfl | rfl <;> decide

/-- Witness for C9: the join event sits at index 1 and the log-controller
release at index 2 of the concrete teardown sequence.  -/
theorem c9_teardown_witness :
    (CloudEnv.teardownSequence true)[1]? = some TeardownEvent.joinPurger ∧
    (1 : Nat) < 2 :=
  ⟨rfl, c9_teardown_release_after_join true rfl 1 2 rfl (Or.inl rfl)⟩

/-- C10: an environment variable that is present but set to the empty
string counts as found: the result is assigned the empty string and the
function returns true.  -/
theorem c10_present_but_empty_counts_found (env : String → Option String)
    (name : String) (alt : Option String) (result : String)
    (h : env name = some "") :
    getNameFromEnvironment env name alt result = (true, "") := by
  unfold getNameFromEnvironment
  cases alt <;> simp [h]

/-- Witness for C10: a primary variable present with an empty value.  -/
theorem c10_present_but_empty_witness :
    getNameFromEnvironment presentButEmptyEnv "X_TEST" (some "X") "orig" =
      (true, "") :=
  c10_present_but_empty_counts_found presentButEmptyEnv "X_TEST" (some "X")
    "orig" (by decide)

end RocksDBCloud
